import Mathlib

/-!
Shallow embedding of the `qec-frameworks` repository: four Python scripts that
print static comparison reports about quantum-error-correction toolkits.

Conventions of the embedding:
* a `print(x)` call is modelled as appending the argument string `x` (which may
  itself contain newline characters, coming from multi-line literals) to a
  console modelled as `List String`;
* Python string literal datasets (`frameworks`, `comparison`) are association
  lists / string lists in source order, since `dict` iteration order is
  insertion order;
* fallible operations (`dict[key]`, `list[i]`) return `Except`/`Option`
  instead of raising, so a raised `KeyError`/`IndexError` is an `error`/`none`
  result;
* Python format specs `{s:15}` / `{s:<40}` on strings are left-justification
  to a minimum width, never truncating.
-/

/-- Python's `c * n` string repetition for a single character `c`. -/
def rep (c : Char) (n : Nat) : String :=
  String.mk (List.replicate n c)

/-- Python's left-justify format (`{s:<w}`, and `{s:w}` on strings): pad with
spaces on the right up to width `w`; strings of length `≥ w` are unchanged. -/
def pyLJust (s : String) (w : Nat) : String :=
  s ++ rep ' ' (w - s.length)

/-- CPython's `str.center(w)`: the left margin is `marg / 2 + (marg & w & 1)`
where `marg = w - len(s)`. -/
def pyCenter (s : String) (w : Nat) : String :=
  let marg := w - s.length
  let left := marg / 2 + (marg % 2) * (w % 2)
  rep ' ' left ++ s ++ rep ' ' (marg - left)

/-- One framework profile: the ordered field-name/value pairs of its literal
dictionary in `expanded_qec_comparison.py`. -/
abbrev Profile := List (String × String)

/-- Python `dict` lookup on an association list (first matching key). -/
def lookupKey (d : Profile) (k : String) : Option String :=
  match d with
  | [] => none
  | (k', v) :: rest => if k' = k then some v else lookupKey rest k

/-- The literal `frameworks` dictionary of
`expanded_qec_comparison.py` (lines 16-122), in source order. -/
def frameworks : List (String × Profile) := [
  ("Loom",
   [("Developer", "Entropica Labs (Singapore)"),
    ("Type", "Full-stack QEC toolkit"),
    ("Primary Focus", "Visual design & lattice surgery"),
    ("Language", "Python"),
    ("License", "Open-source"),
    ("Launch Date", "2024-2025"),
    ("Unique Strength", "Entwine visual GUI for lattice surgery"),
    ("Integration", "Stim, OpenQASM, PennyLane/Catalyst"),
    ("Best For", "Research, visual prototyping, education"),
    ("Installation", "pip/poetry"),
    ("Documentation", "7/10 - Good API docs, needs more tutorials"),
    ("Community", "Growing, QEC Challenge 2025"),
    ("Backend/Layer", "High-level design layer")]),
  ("Deltakit",
   [("Developer", "Riverlane (UK)"),
    ("Type", "SDK + Learning platform"),
    ("Primary Focus", "Learning & deployment pipeline"),
    ("Language", "Python"),
    ("License", "Open-source + proprietary cloud"),
    ("Launch Date", "September 2025"),
    ("Unique Strength", "Comprehensive interactive textbook"),
    ("Integration", "Deltaflow hardware, cloud decoders"),
    ("Best For", "Learning, production deployment"),
    ("Installation", "pip + cloud token"),
    ("Documentation", "9/10 - Excellent textbook"),
    ("Community", "Backed by established QEC leader"),
    ("Backend/Layer", "High-level with hardware focus")]),
  ("Stim",
   [("Developer", "Craig Gidney (Google)"),
    ("Type", "Stabilizer circuit simulator"),
    ("Primary Focus", "High-performance QEC simulation"),
    ("Language", "C++ with Python bindings"),
    ("License", "Open-source (Apache 2.0)"),
    ("Launch Date", "2021"),
    ("Unique Strength", "Extreme speed (198 papers in 2024)"),
    ("Integration", "Used by Loom, Deltakit, PyMatching"),
    ("Best For", "Fast simulation, research backbone"),
    ("Installation", "pip install stim"),
    ("Documentation", "8/10 - Good technical docs"),
    ("Community", "Industry standard, widely adopted"),
    ("Backend/Layer", "Low-level simulation engine")]),
  ("PyMatching",
   [("Developer", "Oscar Higgott & Craig Gidney"),
    ("Type", "Decoder library"),
    ("Primary Focus", "Minimum-weight perfect matching"),
    ("Language", "Python/C++"),
    ("License", "Open-source"),
    ("Launch Date", "2021 (v2 in 2023)"),
    ("Unique Strength", "100-1000x faster than v1"),
    ("Integration", "Designed for Stim, used with Sinter"),
    ("Best For", "Fast decoding of surface codes"),
    ("Installation", "pip install pymatching"),
    ("Documentation", "8/10 - Clear API docs"),
    ("Community", "Standard decoder in research"),
    ("Backend/Layer", "Decoder layer")]),
  ("qLDPC",
   [("Developer", "Infleqtion & JPMorgan Chase"),
    ("Type", "LDPC code library"),
    ("Primary Focus", "Hardware-efficient codes"),
    ("Language", "Python"),
    ("License", "Open-source"),
    ("Launch Date", "May 2025"),
    ("Unique Strength", "10-100x qubit reduction"),
    ("Integration", "Neutral atom hardware"),
    ("Best For", "Hardware-aware optimization"),
    ("Installation", "GitHub (qLDPCOrg/qldpc)"),
    ("Documentation", "New, documentation growing"),
    ("Community", "New, backed by major players"),
    ("Backend/Layer", "Code design layer")]),
  ("MQT QECC",
   [("Developer", "TU Munich"),
    ("Type", "QEC toolkit"),
    ("Primary Focus", "Design automation"),
    ("Language", "Python/C++"),
    ("License", "Open-source"),
    ("Launch Date", "Ongoing development"),
    ("Unique Strength", "Full stack coverage"),
    ("Integration", "Part of Munich Quantum Toolkit"),
    ("Best For", "Research, compilation"),
    ("Installation", "pip install mqt.qecc"),
    ("Documentation", "Good, academic focus"),
    ("Community", "Academic community"),
    ("Backend/Layer", "Multi-layer toolkit")]),
  ("Qiskit",
   [("Developer", "IBM"),
    ("Type", "General quantum framework"),
    ("Primary Focus", "Full quantum computing stack"),
    ("Language", "Python"),
    ("License", "Open-source (Apache 2.0)"),
    ("Launch Date", "2017"),
    ("Unique Strength", "Industry standard, IBM hardware"),
    ("Integration", "IBM Quantum, Aer simulator"),
    ("Best For", "IBM ecosystem, general QC"),
    ("Installation", "pip install qiskit"),
    ("Documentation", "10/10 - Comprehensive"),
    ("Community", "Largest quantum community"),
    ("Backend/Layer", "Full stack platform")]
  )]

/-- The fixed ordered category list of the loop at line 125 of
`expanded_qec_comparison.py`. -/
def categoriesList : List String :=
  ["Type", "Primary Focus", "Unique Strength", "Best For", "Backend/Layer"]

/-- The inner per-profile print loop (line 129-130 of
`expanded_qec_comparison.py`): `print(f"{name:15} | {details[category]}")` for
each profile in insertion order; a missing key raises `KeyError`. -/
def profileLines (category : String) : List (String × Profile) → Except String (List String)
  | [] => Except.ok []
  | (name, details) :: rest =>
    match lookupKey details category with
    | none => Except.error ("KeyError: " ++ category)
    | some v =>
      match profileLines category rest with
      | Except.error e => Except.error e
      | Except.ok ls => Except.ok ((pyLJust name 15 ++ " | " ++ v) :: ls)

/-- The three banner lines printed before each category's profile lines
(lines 126-128): `print(f"\n{'=' * 100}")`, `print(f"{category.upper()}")`,
`print(f"{'=' * 100}")`. -/
def categoryBanner (category : String) : List String :=
  ["\n" ++ rep '=' 100, category.toUpper, rep '=' 100]

/-- The outer category loop (lines 125-130): banner plus one line per profile,
for each category in order. -/
def renderByCategory (fw : List (String × Profile)) : List String → Except String (List String)
  | [] => Except.ok []
  | c :: cs =>
    match profileLines c fw with
    | Except.error e => Except.error e
    | Except.ok ls =>
      match renderByCategory fw cs with
      | Except.error e => Except.error e
      | Except.ok rest => Except.ok (categoryBanner c ++ ls ++ rest)

/-- The `frameworks` dataset restricted to the three profiles Loom, Deltakit
and Stim (the end-to-end scenario dataset of the specification). -/
def frameworksLDS : List (String × Profile) :=
  frameworks.filter (fun nd => nd.1 == "Loom" || nd.1 == "Deltakit" || nd.1 == "Stim")

/-- The `comparison["Feature"]` list of `qec_framework_comparison.py`
(lines 242-257). -/
def comparisonFeature : List String := [
  "License",
  "Primary Focus",
  "Installation",
  "Visual Design Tool",
  "Code Types Supported",
  "Backend Support",
  "Lattice Surgery",
  "Cloud Integration",
  "Documentation Quality",
  "Learning Resources",
  "Hardware Integration",
  "Community/Maturity",
  "Company Focus",
  "Best For"
]

/-- The `comparison["Loom (Entropica Labs)"]` list (lines 258-273). -/
def comparisonLoom : List String := [
  "Open-source",
  "QEC circuit design & lattice surgery",
  "pip/poetry, local install",
  "Yes - Entwine (browser-based)",
  "Surface, Repetition, Steane, Shor, 5-qubit",
  "Stim, OpenQASM 3.0, PennyLane",
  "Yes - Visual and programmatic",
  "No - Fully local",
  "Good - API docs, tutorials",
  "Entwine GUI, examples, blog posts",
  "Hardware-agnostic, research focus",
  "Newer, growing (Singapore-based)",
  "Software tools for FTQC",
  "Research, prototyping, education, visual design"
]

/-- The `comparison["Deltakit (Riverlane)"]` list (lines 274-289). -/
def comparisonDeltakit : List String := [
  "Open-source SDK + proprietary cloud",
  "QEC learning & deployment pipeline",
  "pip install + cloud token",
  "No - Code-based only",
  "Repetition, Surface codes",
  "Python SDK, cloud simulators",
  "No - Focus on decoding",
  "Yes - Proprietary decoders",
  "Excellent - Comprehensive textbook",
  "Full textbook, interactive tutorials",
  "Deltaflow hardware stack integration",
  "Newer, backed by Riverlane (UK-based)",
  "Real-time QEC hardware + software",
  "Learning QEC, production deployment, hardware"
]

/-- One data line of the feature table (line 299 of
`qec_framework_comparison.py`):
`print(f"{feature:<30} | {loom_val:<40} | {delta_val:<40}")`. -/
def tableDataLine (feature lv dv : String) : String :=
  pyLJust feature 30 ++ " | " ++ pyLJust lv 40 ++ " | " ++ pyLJust dv 40

/-- The loop of `print_comparison_table` (lines 296-299): for `i, feature` in
`enumerate(comparison["Feature"])` (starting at `i = 0`), index the Loom and
Deltakit columns at `i`; an out-of-range index raises `IndexError` (`none`). -/
def tableRowsAux (i : Nat) : List String → Option (List String)
  | [] => some []
  | f :: fs =>
    match comparisonLoom.get? i, comparisonDeltakit.get? i with
    | some lv, some dv =>
      match tableRowsAux (i + 1) fs with
      | some rest => some (tableDataLine f lv dv :: rest)
      | none => none
    | _, _ => none

/-- `print_comparison_table` (lines 235-301) as the ordered list of strings it
prints: two banner stretches, the header line, the separator, the data rows,
and the closing rule. -/
def print_comparison_table : Option (List String) :=
  match tableRowsAux 0 comparisonFeature with
  | none => none
  | some rows =>
    some ([rep '=' 80, "FEATURE COMPARISON", rep '=' 80,
           "\n" ++ pyLJust "Feature" 30 ++ " | " ++ pyLJust "Loom" 40 ++ " | " ++
             pyLJust "Deltakit" 40,
           rep '-' 115] ++ rows ++ ["\n" ++ rep '=' 80 ++ "\n"])

/-- The cell values of data-row index `i`: each profile column indexed at `i`,
in profile order; `none` if any column is too short (`IndexError`). This
generalises the two literal column reads `comparison[...][i]` of the loop body
to a list of named profile columns. -/
def columnVals (i : Nat) : List (String × List String) → Option (List String)
  | [] => some []
  | p :: ps =>
    match p.2.get? i with
    | none => none
    | some v =>
      match columnVals i ps with
      | none => none
      | some vs => some (v :: vs)

/-- A generalised data line: the feature cell followed by one 40-column cell
per profile value. For two profiles this is exactly `tableDataLine`. -/
def rowOfVals (f : String) (vals : List String) : String :=
  pyLJust f 30 ++ String.join (vals.map (fun v => " | " ++ pyLJust v 40))

/-- The table loop generalised to any list of profile columns, keeping the
code's structure: one printed row per feature, reading every profile column at
the running index. -/
def renderTableRows (profiles : List (String × List String)) (i : Nat) :
    List String → Option (List String)
  | [] => some []
  | f :: fs =>
    match columnVals i profiles with
    | none => none
    | some vals =>
      match renderTableRows profiles (i + 1) fs with
      | none => none
      | some rest => some (rowOfVals f vals :: rest)

/-- The banner and header lines printed before the data rows
(lines 237-239 and 293-294), with the profile short names as column heads. -/
def tableHeader (profiles : List (String × List String)) : List String :=
  [rep '=' 80, "FEATURE COMPARISON", rep '=' 80,
   "\n" ++ pyLJust "Feature" 30 ++
     String.join (profiles.map (fun p => " | " ++ pyLJust p.1 40)),
   rep '-' 115]

/-- The generalised table renderer: banner/header, one data row per feature,
closing rule. -/
def renderTable (profiles : List (String × List String)) (features : List String) :
    Option (List String) :=
  match renderTableRows profiles 0 features with
  | none => none
  | some rows => some (tableHeader profiles ++ rows ++ ["\n" ++ rep '=' 80 ++ "\n"])

/-- The two profile columns of the literal `comparison` dictionary, with the
short names used in the printed header. -/
def profilesLoomDeltakit : List (String × List String) :=
  [("Loom", comparisonLoom), ("Deltakit", comparisonDeltakit)]

/-- A sequence of `print` calls executed from a given console state: each
call appends its argument string. -/
def runPrints (console : List String) : List String → List String
  | [] => console
  | s :: rest => runPrints (console ++ [s]) rest

/-- The prints of `print_comprehensive_comparison` after the category loop
(lines 132-367 of `expanded_qec_comparison.py`), in order. -/
def expandedTailLines : List String := [
  "\n" ++ rep '=' 100,
  "ECOSYSTEM LAYERS AND RELATIONSHIPS",
  rep '=' 100,
  "\n    ┌─────────────────────────────────────────────────────────────────┐\n    │  HIGH-LEVEL DESIGN & LEARNING                                   │\n    │  • Loom (visual design, lattice surgery)                        │\n    │  • Deltakit (learning, textbook)                                │\n    │  • Qiskit (full platform)                                       │\n    └────────────────────────┬────────────────────────────────────────┘\n                             │\n    ┌────────────────────────┴────────────────────────────────────────┐\n    │  CODE DESIGN & OPTIMIZATION                                     │\n    │  • qLDPC (hardware-efficient LDPC codes)                        │\n    │  • MQT QECC (synthesis & compilation)                           │\n    └────────────────────────┬────────────────────────────────────────┘\n                             │\n    ┌────────────────────────┴────────────────────────────────────────┐\n    │  SIMULATION ENGINE                                              │\n    │  • Stim (high-performance stabilizer simulation)                │\n    │  • Qiskit Aer (general quantum simulation with noise)           │\n    └────────────────────────┬────────────────────────────────────────┘\n                             │\n    ┌────────────────────────┴────────────────────────────────────────┐\n    │  DECODING                                                       │\n    │  • PyMatching (MWPM decoder)                                    │\n    │  • Deltakit cloud decoders (proprietary)                        │\n    │  • Various other decoder implementations                        │\n    └─────────────────────────────────────────────────────────────────┘\n    ",
  "\n" ++ rep '=' 100,
  "KEY DISTINCTIONS",
  rep '=' 100,
  "\n    DIFFERENT SCOPE LEVELS:\n    \n    1. FULL PLATFORMS (End-to-end solutions):\n       • Loom: Design → Simulation (via Stim backend)\n       • Deltakit: Learning → Hardware deployment\n       • Qiskit: General quantum computing with QEC features\n    \n    2. SPECIALIZED LIBRARIES (Specific tasks):\n       • Stim: THE simulation engine (used by many others)\n       • PyMatching: THE decoder library (used by many others)\n       • qLDPC: Code design for hardware efficiency\n       • MQT: Compilation and synthesis tools\n    \n    3. NOT DIRECTLY COMPARABLE:\n       Comparing Loom vs Stim is like comparing:\n       • A car (full vehicle) vs an engine (component)\n       • Loom USES Stim as its backend\n       • Deltakit can also use Stim for simulation\n    ",
  "\n" ++ rep '=' 100,
  "REVISED COMPARISON FRAMEWORK",
  rep '=' 100,
  "\n    TIER 1: High-Level Platforms (Direct Competitors)\n    ━━━━━━━━━━━━━━━━━━━━━━━━━━━━━━━━━━━━━━━━━━━━━━━\n    Compare THESE directly:\n    \n    • Loom vs Deltakit vs Qiskit QEC features\n      - All provide end-to-end QEC workflows\n      - Different approaches: visual vs textbook vs enterprise\n      - Choice depends on: research vs learning vs production\n    \n    TIER 2: Core Infrastructure (Complementary, Not Competing)\n    ━━━━━━━━━━━━━━━━━━━━━━━━━━━━━━━━━━━━━━━━━━━━━━━\n    These are USED BY Tier 1 platforms:\n    \n    • Stim: Simulation backbone (nearly universal)\n    • PyMatching: Decoder standard (widely used)\n    • qLDPC: Specialized code library\n    • MQT: Compilation toolkit\n    \n    → You typically use Tier 1 platforms which internally use Tier 2 libraries\n    → Or use Tier 2 directly if building custom solutions\n    ",
  "\n" ++ rep '=' 100,
  "USAGE RECOMMENDATIONS BY SCENARIO",
  rep '=' 100,
  "\n    SCENARIO 1: \"I want to learn QEC from scratch\"\n    ━━━━━━━━━━━━━━━━━━━━━━━━━━━━━━━━━━━━━━━━━━━━━━━\n    BEST CHOICE: Deltakit\n    - Structured textbook from basics to advanced\n    - Interactive exercises\n    - Clear learning path\n    \n    ALSO CONSIDER: Qiskit tutorials\n    - Extensive documentation\n    - Large community support\n    \n    SCENARIO 2: \"I need to design and visualize lattice surgery\"\n    ━━━━━━━━━━━━━━━━━━━━━━━━━━━━━━━━━━━━━━━━━━━━━━━\n    BEST CHOICE: Loom (Entwine)\n    - Only platform with visual GUI\n    - Drag-and-drop interface\n    - Exports to code\n    \n    NO ALTERNATIVE: This is Loom\x27s unique feature\n    \n    SCENARIO 3: \"I need maximum simulation performance\"\n    ━━━━━━━━━━━━━━━━━━━━━━━━━━━━━━━━━━━━━━━━━━━━━━━\n    BEST CHOICE: Stim directly\n    - Fastest available (industry standard)\n    - Can simulate huge circuits\n    - Used in 198 papers (2024)\n    \n    HIGH-LEVEL WRAPPER: Use Loom or Deltakit\n    - They use Stim backend anyway\n    - Add convenience features\n    \n    SCENARIO 4: \"I need to decode surface codes fast\"\n    ━━━━━━━━━━━━━━━━━━━━━━━━━━━━━━━━━━━━━━━━━━━━━━━\n    BEST CHOICE: PyMatching\n    - Industry standard decoder\n    - 100-1000x faster than alternatives\n    - Works seamlessly with Stim\n    \n    CLOUD ALTERNATIVE: Deltakit\n    - Access to proprietary decoders\n    - May be faster for some cases\n    \n    SCENARIO 5: \"I want hardware-efficient codes\"\n    ━━━━━━━━━━━━━━━━━━━━━━━━━━━━━━━━━━━━━━━━━━━━━━━\n    BEST CHOICE: qLDPC\n    - 10-100x qubit reduction\n    - Optimized for neutral atoms\n    - Cutting-edge research\n    \n    SCENARIO 6: \"I\x27m preparing for production deployment\"\n    ━━━━━━━━━━━━━━━━━━━━━━━━━━━━━━━━━━━━━━━━━━━━━━━\n    BEST CHOICE: Deltakit\n    - Designed for Deltaflow hardware\n    - Production-ready workflows\n    - Cloud decoder integration\n    \n    ALSO CONSIDER: Qiskit\n    - If using IBM hardware\n    - Enterprise support available\n    \n    SCENARIO 7: \"I\x27m doing academic QEC research\"\n    ━━━━━━━━━━━━━━━━━━━━━━━━━━━━━━━━━━━━━━━━━━━━━━━\n    STACK APPROACH: Use multiple tools\n    - Stim + PyMatching: Core simulation/decoding\n    - Loom: Visual design when needed\n    - qLDPC: Explore new code families\n    - MQT: Compilation research\n    \n    SCENARIO 8: \"I\x27m building custom QEC solutions\"\n    ━━━━━━━━━━━━━━━━━━━━━━━━━━━━━━━━━━━━━━━━━━━━━━━\n    TOOLKIT APPROACH:\n    - Stim: Simulation engine\n    - PyMatching: Decoder\n    - Custom high-level logic\n    - Or fork/extend existing platforms\n    ",
  "\n" ++ rep '=' 100,
  "THE VERDICT: WHAT SHOULD YOU COMPARE?",
  rep '=' 100,
  "\n    COMPARING HIGH-LEVEL PLATFORMS (Apples to Apples):\n    ━━━━━━━━━━━━━━━━━━━━━━━━━━━━━━━━━━━━━━━━━━━━━━━━━\n    \n    Loom vs Deltakit:\n    ✓ FAIR COMPARISON - Both are end-to-end platforms\n    ✓ Different strengths: visual design vs learning\n    ✓ Choice depends on use case\n    \n    Loom/Deltakit vs Qiskit:\n    ✓ FAIR but different scales\n    ✓ Qiskit is broader platform (general QC + QEC)\n    ✓ Loom/Deltakit are QEC-specialized\n    \n    COMPARING INFRASTRUCTURE (Context Required):\n    ━━━━━━━━━━━━━━━━━━━━━━━━━━━━━━━━━━━━━━━━━━━━━━━━━\n    \n    Stim vs Loom:\n    ✗ UNFAIR - Different layers\n    ✓ Better: \"Loom uses Stim backend\"\n    ✓ Note: You can use Stim directly OR through Loom\n    \n    PyMatching vs Deltakit decoders:\n    ~ PARTIALLY FAIR - Both do decoding\n    ✓ PyMatching: Open-source, standard\n    ✓ Deltakit: Proprietary cloud, possibly faster\n    ✓ Context: Different architectural approaches\n    \n    ORIGINAL COMPARISON WAS CORRECT:\n    ━━━━━━━━━━━━━━━━━━━━━━━━━━━━━━━━━━━━━━━━━━━━━━━━━\n    \n    Your initial Loom vs Deltakit comparison WAS appropriate:\n    • Both are high-level platforms\n    • Similar scope and ambitions\n    • Different approaches to same problem\n    • Direct competitors in the market\n    \n    BUT now you have broader context:\n    • Stim is the engine many platforms use\n    • PyMatching is standard decoder\n    • qLDPC offers alternative code approach\n    • Each tool serves specific purpose\n    ",
  "\n" ++ rep '=' 100,
  "UPDATED RECOMMENDATION",
  rep '=' 100,
  "\n    FOR YOUR COMPARISON DOCUMENT:\n    \n    PRIMARY COMPARISON: Loom vs Deltakit (as originally done)\n    → This remains valid and useful\n    \n    ADD CONTEXT SECTION: \"Relationship to Core Infrastructure\"\n    → Explain that both use Stim\n    → Mention PyMatching as standard decoder\n    → Note qLDPC as emerging alternative approach\n    → Position Qiskit as broader platform alternative\n    \n    ADD ECOSYSTEM DIAGRAM: Show layers\n    → High-level platforms (Loom, Deltakit)\n    → Core infrastructure (Stim, PyMatching)\n    → Specialized tools (qLDPC, MQT)\n    \n    CONCLUSION:\n    Your original comparison was on-target. The additional frameworks\n    provide important context but don\x27t invalidate the core comparison.\n    They operate at different layers or serve complementary purposes.\n    ",
  "\n" ++ rep '=' 100,
  -- ===== MAIN BLOCK =====
  -- CALL print_comprehensive_comparison()
]

/-- Every line printed by `print_comprehensive_comparison` (lines 11-367):
the opening banner (lines 11-14), the category-loop output, and the static
tail sections. -/
def print_comprehensive_comparison_lines : List String :=
  [rep '=' 100, "COMPREHENSIVE QEC FRAMEWORK COMPARISON", rep '=' 100, ""] ++
  (match renderByCategory frameworks categoriesList with
   | Except.ok ls => ls
   | Except.error _ => []) ++
  expandedTailLines

/-- Every line printed by `print_detailed_comparison` (lines 308-404 of
`qec_framework_comparison.py`), in order. -/
def print_detailed_comparison_lines : List String := [
  rep '=' 80,
  "DETAILED ANALYSIS",
  rep '=' 80,
  "\n1. EASE OF USE",
  rep '-' 80,
  "\nLoom:",
  "  ✓ Entwine visual interface makes lattice surgery intuitive",
  "  ✓ No authentication or cloud setup required",
  "  ✓ Poetry-based installation, standard Python workflow",
  "  - Steeper learning curve for programmatic API",
  "  - Less structured learning path",
  "\nDeltakit:",
  "  ✓ Structured textbook provides clear learning progression",
  "  ✓ Simple pip install + token setup",
  "  ✓ Interactive tutorials with code exercises",
  "  ✓ Well-documented SDK with examples",
  "  - Requires cloud token registration",
  "  - No visual design interface",
  "\n\n2. CAPABILITIES",
  rep '-' 80,
  "\nLoom:",
  "  ✓ Strong focus on lattice surgery operations",
  "  ✓ Multiple pre-built QEC codes",
  "  ✓ Visual circuit design up to 60-70 patches",
  "  ✓ EKA data structure for state management",
  "  ✓ Integration with PennyLane/Catalyst for QML",
  "  ✓ Exports to multiple backends (Stim, OpenQASM)",
  "\nDeltakit:",
  "  ✓ Comprehensive noise modeling",
  "  ✓ Multiple decoder implementations",
  "  ✓ Access to proprietary cloud decoders (LCD)",
  "  ✓ Designed for hardware deployment pipeline",
  "  ✓ Integration with Deltaflow hardware",
  "  ✓ Focus on real-time QEC execution",
  "\n\n3. MATURITY",
  rep '-' 80,
  "\nLoom:",
  "  - Newer framework (launched 2024-2025)",
  "  - Growing community",
  "  - Active development by Entropica Labs",
  "  - Used in QEC Challenge (May-June 2025)",
  "  - Part of larger vision: Quilt FTOS",
  "\nDeltakit:",
  "  - Launched September 2025",
  "  - Backed by Riverlane (established QEC leader)",
  "  - VP Liz Durst (ex-IBM Qiskit lead)",
  "  - Designed to complement Deltaflow hardware",
  "  - Targets MegaQuOp scale by 2026",
  "\n\n4. DOCUMENTATION QUALITY",
  rep '-' 80,
  "\nLoom:",
  "  Rating: 7/10",
  "  ✓ API reference documentation",
  "  ✓ Installation guides",
  "  ✓ Example notebooks",
  "  ✓ Blog posts and technical papers",
  "  - Less comprehensive learning materials",
  "  - Could benefit from more tutorials",
  "\nDeltakit:",
  "  Rating: 9/10",
  "  ✓ Comprehensive interactive textbook",
  "  ✓ Module-by-module progression",
  "  ✓ Code exercises with explanations",
  "  ✓ Practical examples throughout",
  "  ✓ Clear API documentation",
  "  ✓ Addresses 82% barrier of lack of training",
  "\n\n5. USE CASE RECOMMENDATIONS",
  rep '-' 80,
  "\nChoose Loom if you:",
  "  • Want visual, intuitive circuit design",
  "  • Focus on lattice surgery research",
  "  • Need to prototype complex QEC schemes quickly",
  "  • Prefer local-only tools (no cloud)",
  "  • Work on quantum machine learning with QEC",
  "  • Are in academic/research environment",
  "\nChoose Deltakit if you:",
  "  • Are learning QEC from scratch",
  "  • Plan to deploy on real hardware",
  "  • Need access to advanced decoders",
  "  • Want structured, textbook-driven learning",
  "  • Are preparing for hardware integration",
  "  • Work with Riverlane\x27s Deltaflow stack",
  "\n" ++ rep '=' 80 ++ "\n"
]

/-- `print_comprehensive_comparison` as a console transformer: invoking the
function appends its printed lines to the console. -/
def print_comprehensive_comparison_run (console : List String) : List String :=
  runPrints console print_comprehensive_comparison_lines

/-- The lines of `print_comparison_table` as a plain list (the renderer
succeeds on the literal data). -/
def print_comparison_table_lines : List String :=
  match print_comparison_table with
  | some ls => ls
  | none => []

/-- `print_comparison_table` as a console transformer. -/
def print_comparison_table_run (console : List String) : List String :=
  runPrints console print_comparison_table_lines

/-- `print_detailed_comparison` as a console transformer. -/
def print_detailed_comparison_run (console : List String) : List String :=
  runPrints console print_detailed_comparison_lines

/-- A Python exception as raised in these scripts: an `ImportError` (with its
`ModuleNotFoundError` subclass) or any other exception. -/
inductive PyExc where
  | importError (msg : String)
  | other (msg : String)
deriving DecidableEq

/-- A top-level effectful statement of one of the scripts: a print of a fully
determined string, a module-level import of an external module, an unguarded
call into an external package, or a call wrapped in its own
`try/except Exception` block. -/
inductive Stmt where
  | print (s : String)
  | importMod (m : String)
  | extCall (desc : String)
  | guardedCall (desc : String)
deriving DecidableEq

/-- Execute statements in order against a console. `avail` says which external
modules are importable; `callOk` says which unguarded external calls return
normally. A `guardedCall` can never abort the script (its own printed output
depends on the absent external package and is not modelled). Execution stops
at the first raised exception, returning the console so far and the
exception. -/
def execStmts (avail callOk : String → Bool) :
    List Stmt → List String → List String × Option PyExc
  | [], out => (out, none)
  | Stmt.print s :: rest, out => execStmts avail callOk rest (out ++ [s])
  | Stmt.importMod m :: rest, out =>
    if avail m then execStmts avail callOk rest out
    else (out, some (PyExc.importError ("No module named " ++ m)))
  | Stmt.extCall d :: rest, out =>
    if callOk d then execStmts avail callOk rest out
    else (out, some (PyExc.other d))
  | Stmt.guardedCall _ :: rest, out => execStmts avail callOk rest out

/-- Run a script from an empty console. -/
def runScript (avail callOk : String → Bool) (stmts : List Stmt) :
    List String × Option PyExc :=
  execStmts avail callOk stmts []

/-- The process exits with status 0 iff no exception escaped. -/
def exitOk (r : List String × Option PyExc) : Bool := r.2.isNone

/-- `try: body / except ImportError as e: handler(e)` — the handler's prints
run only when the body raises an `ImportError`; other exceptions propagate. -/
def tryExceptImportError (avail callOk : String → Bool) (body : List Stmt)
    (handler : String → List String) (console : List String) :
    List String × Option PyExc :=
  let r := execStmts avail callOk body console
  match r.2 with
  | some (PyExc.importError m) => (r.1 ++ handler m, none)
  | _ => r

/-- Whether a statement is a plain print. -/
def isPrintStmt : Stmt → Bool
  | Stmt.print _ => true
  | _ => false

/-- The strings printed by the plain print statements of a list, in order. -/
def printsOf : List Stmt → List String
  | [] => []
  | Stmt.print s :: rest => s :: printsOf rest
  | _ :: rest => printsOf rest

/-- The try body of `loom_example` (lines 27-103 of
`qec_framework_comparison.py`): print calls of literal strings only (the
`from loom import ...` lines there are comments). -/
def loomExampleBody : List Stmt := [
  Stmt.print ("\n1. Creating a Repetition Code:"),
  Stmt.print ("   - Distance: 3"),
  Stmt.print ("   - Code type: Bit-flip repetition code"),
  Stmt.print ("\n   Example code:\n   ```python\n   from loom.code_factories import RepetitionCode\n   \n   # Create a distance-3 repetition code\n   rep_code = RepetitionCode(distance=3, basis=\x27Z\x27)\n   \n   # Get the stabilizer measurements\n   stabilizers = rep_code.get_stabilizers()\n   \n   # Build syndrome extraction circuit\n   circuit = rep_code.build_syndrome_circuit()\n   ```\n        "),
  Stmt.print ("\n2. Creating a Surface Code:"),
  Stmt.print ("   - Code type: Rotated surface code"),
  Stmt.print ("   - Distance: 5"),
  Stmt.print ("\n   Example code:\n   ```python\n   from loom.code_factories import RotatedSurfaceCode\n   \n   # Create a distance-5 rotated surface code\n   surface_code = RotatedSurfaceCode(distance=5)\n   \n   # Generate logical operations using lattice surgery\n   logical_x = surface_code.logical_x_operation()\n   logical_z = surface_code.logical_z_operation()\n   ```\n        "),
  Stmt.print ("\n3. Lattice Surgery with Entwine:"),
  Stmt.print ("   - Visual drag-and-drop interface"),
  Stmt.print ("   - Browser-based (no installation)"),
  Stmt.print ("   - Exports to Loom code"),
  Stmt.print ("   - URL: https://entwine.entropicalabs.io/"),
  Stmt.print ("\n4. Running with Stim Backend:"),
  Stmt.print ("\n   Example code:\n   ```python\n   from loom.backends import StimBackend\n   from loom.executor import Executor\n   \n   # Create backend and executor\n   backend = StimBackend()\n   executor = Executor(backend)\n   \n   # Run QEC experiment\n   results = executor.run(circuit, num_shots=10000)\n   \n   # Analyze error rates\n   logical_error_rate = results.compute_logical_error_rate()\n   ```\n        "),
  Stmt.print ("\n5. Integration with PennyLane/Catalyst:"),
  Stmt.print ("   - Seamless integration for fault-tolerant quantum ML"),
  Stmt.print ("   - Hybrid quantum-classical workflows"),
  Stmt.print ("\nKey Features of Loom:"),
  Stmt.print ("- ✓ Open-source Python library"),
  Stmt.print ("- ✓ Visual IDE (Entwine) for lattice surgery"),
  Stmt.print ("- ✓ Pre-built QEC codes (surface, repetition, Steane, Shor)"),
  Stmt.print ("- ✓ Integration with Stim, OpenQASM 3.0"),
  Stmt.print ("- ✓ EKA data structure for QEC state management"),
  Stmt.print ("- ✓ Supports up to 60-70 patches in visual designer")
]

/-- The `except ImportError` handler of `loom_example` (lines 105-107). -/
def loomExampleHandler (e : String) : List String :=
  ["\n[Note: Loom not installed. Install with: pip install loom]",
   "Error: " ++ e]

/-- `loom_example` (lines 13-109): banner, try body with `ImportError`
handler, closing rule. -/
def loom_example (avail callOk : String → Bool) (console : List String) :
    List String × Option PyExc :=
  let r := tryExceptImportError avail callOk loomExampleBody loomExampleHandler
    (console ++ [rep '=' 80, "LOOM (Entropica Labs) Example", rep '=' 80])
  match r.2 with
  | none => (r.1 ++ ["\n" ++ rep '=' 80 ++ "\n"], none)
  | some _ => r

/-- The try body of `deltakit_example` (lines 130-222): print calls of
literal strings only (the `from deltakit import ...` lines are comments). -/
def deltakitExampleBody : List Stmt := [
  Stmt.print ("\n1. Setup and Authentication:"),
  Stmt.print ("\n   Example code:\n   ```python\n   from deltakit import Client\n   \n   # Set up access token (free from deltakit.riverlane.com)\n   Client.set_token(\"YOUR_TOKEN\")\n   ```\n        "),
  Stmt.print ("\n2. Creating a QEC Circuit:"),
  Stmt.print ("   - Define error correction code"),
  Stmt.print ("   - Add noise model"),
  Stmt.print ("   - Simulate execution"),
  Stmt.print ("\n   Example code:\n   ```python\n   from deltakit import SurfaceCode\n   from deltakit.noise import DepolarizingNoise\n   \n   # Create a surface code\n   code = SurfaceCode(distance=5)\n   \n   # Generate the QEC circuit\n   circuit = code.generate_circuit(num_rounds=10)\n   \n   # Add realistic noise model\n   noise_model = DepolarizingNoise(\n       gate_error=0.001,\n       measurement_error=0.01\n   )\n   noisy_circuit = circuit.add_noise(noise_model)\n   ```\n        "),
  Stmt.print ("\n3. Running Simulation and Decoding:"),
  Stmt.print ("\n   Example code:\n   ```python\n   from deltakit.simulation import Simulator\n   from deltakit.decoders import MinimumWeightDecoder\n   \n   # Simulate the circuit\n   simulator = Simulator()\n   results = simulator.run(noisy_circuit, shots=1000)\n   \n   # Decode the syndrome measurements\n   decoder = MinimumWeightDecoder()\n   corrections = decoder.decode(results.syndromes)\n   \n   # Calculate logical error rate\n   logical_errors = results.compute_logical_errors(corrections)\n   error_rate = logical_errors / 1000\n   ```\n        "),
  Stmt.print ("\n4. Cloud Decoders:"),
  Stmt.print ("   - Access to Riverlane\x27s proprietary decoders"),
  Stmt.print ("   - Local Clustering Decoder (LCD)"),
  Stmt.print ("   - High-performance decoding"),
  Stmt.print ("\n   Example code:\n   ```python\n   from deltakit.cloud import CloudDecoder\n   \n   # Use cloud-based proprietary decoder\n   cloud_decoder = CloudDecoder(decoder_type=\x27LCD\x27)\n   corrections = cloud_decoder.decode(results.syndromes)\n   ```\n        "),
  Stmt.print ("\n5. Learning with Deltakit Textbook:"),
  Stmt.print ("   - Interactive tutorials from basics to advanced"),
  Stmt.print ("   - Module 1: Why QEC is essential"),
  Stmt.print ("   - Module 2: Repetition codes"),
  Stmt.print ("   - Module 3: Surface codes and stabilizers"),
  Stmt.print ("   - Module 4: Decoding techniques"),
  Stmt.print ("   - URL: https://textbook.riverlane.com/"),
  Stmt.print ("\nKey Features of Deltakit:"),
  Stmt.print ("- ✓ Open-source SDK with cloud integration"),
  Stmt.print ("- ✓ Comprehensive textbook for learning"),
  Stmt.print ("- ✓ Realistic noise models"),
  Stmt.print ("- ✓ Multiple decoder implementations"),
  Stmt.print ("- ✓ Cloud access to proprietary decoders"),
  Stmt.print ("- ✓ Designed for Deltaflow hardware integration"),
  Stmt.print ("- ✓ Targets real hardware deployment")
]

/-- The `except ImportError` handler of `deltakit_example` (lines 224-226). -/
def deltakitExampleHandler (e : String) : List String :=
  ["\n[Note: Deltakit not installed. Install with: pip install deltakit]",
   "Error: " ++ e]

/-- `deltakit_example` (lines 116-228): banner, try body with `ImportError`
handler, closing rule. -/
def deltakit_example (avail callOk : String → Bool) (console : List String) :
    List String × Option PyExc :=
  let r := tryExceptImportError avail callOk deltakitExampleBody
    deltakitExampleHandler
    (console ++ [rep '=' 80, "DELTAKIT (Riverlane) Example", rep '=' 80])
  match r.2 with
  | none => (r.1 ++ ["\n" ++ rep '=' 80 ++ "\n"], none)
  | some _ => r

/-- The lines `loom_example` appends to the console. -/
def loomExampleLines : List String :=
  [rep '=' 80, "LOOM (Entropica Labs) Example", rep '=' 80] ++
  printsOf loomExampleBody ++ ["\n" ++ rep '=' 80 ++ "\n"]

/-- The lines `deltakit_example` appends to the console. -/
def deltakitExampleLines : List String :=
  [rep '=' 80, "DELTAKIT (Riverlane) Example", rep '=' 80] ++
  printsOf deltakitExampleBody ++ ["\n" ++ rep '=' 80 ++ "\n"]

/-- The opening banner printed by `main` of `qec_framework_comparison.py`
(lines 413-420). -/
def mainBannerLines : List String := [
  "\n",
  "╔" ++ rep '=' 78 ++ "╗",
  "║" ++ rep ' ' 78 ++ "║",
  "║" ++ pyCenter "  QUANTUM ERROR CORRECTION FRAMEWORK COMPARISON" 78 ++ "║",
  "║" ++ pyCenter "  Loom (Entropica Labs) vs Deltakit (Riverlane)" 78 ++ "║",
  "║" ++ rep ' ' 78 ++ "║",
  "╚" ++ rep '=' 78 ++ "╝",
  "\n"
]

/-- The summary block printed by `main` (lines 431-462). -/
def mainSummaryLines : List String := [
  rep '=' 80,
  "SUMMARY",
  rep '=' 80,
  "\nBoth frameworks are excellent tools for quantum error correction, but serve\ndifferent primary purposes:\n\nLOOM excels at:\n  - Visual design and rapid prototyping\n  - Lattice surgery operations\n  - Academic research and exploration\n  - Integration with quantum ML frameworks\n\nDELTAKIT excels at:\n  - Structured learning and skill development\n  - Path to hardware deployment\n  - Advanced decoding with cloud resources\n  - Production-ready QEC workflows\n\nMany practitioners may benefit from using BOTH:\n  - Use Deltakit to learn QEC fundamentals\n  - Use Loom\x27s Entwine for visual design and lattice surgery\n  - Leverage each tool\x27s strengths for different aspects of QEC work\n\nBoth are actively developed and represent the cutting edge of QEC software tools.\n    ",
  rep '=' 80,
  "\nFor more information:",
  "  Loom: https://loom-docs.entropicalabs.com/",
  "  Deltakit: https://deltakit.riverlane.com/",
  ""
]

/-- Every line printed by `main` (lines 411-462): banner, the two example
functions, the two comparison printers, and the summary. -/
def mainLines : List String :=
  mainBannerLines ++ loomExampleLines ++ deltakitExampleLines ++
  print_comparison_table_lines ++ print_detailed_comparison_lines ++
  mainSummaryLines

/-- Running `qec_framework_comparison.py` as a script: no module-level
imports; the only observable effects are `main()`'s prints. -/
def qecComparisonScript : List Stmt := mainLines.map Stmt.print

/-- Running `expanded_qec_comparison.py` as a script: no module-level
imports; the only observable effects are the prints of
`print_comprehensive_comparison()`. -/
def expandedComparisonScript : List Stmt :=
  print_comprehensive_comparison_lines.map Stmt.print

/-- The code string assigned to `entwine_generated_code` in
`example_entwine_integration` of `loom_getting_started.py` (lines 340-356)
and printed there. -/
def entwine_generated_code : String :=
  "\n    from loom.code_factory import RotatedSurfaceCodeFactory\n    from loom.lattice_surgery import LatticeSurgeryBlock\n    \n    # Patches defined in Entwine\n    patch_A = RotatedSurfaceCodeFactory(distance=3).generate_code()\n    patch_B = RotatedSurfaceCodeFactory(distance=3).generate_code()\n    \n    # Operations defined in Entwine\n    ls_block = LatticeSurgeryBlock()\n    ls_block.add_patch(patch_A, position=(0, 0))\n    ls_block.add_patch(patch_B, position=(4, 0))\n    ls_block.add_cnot_operation(control=patch_A, target=patch_B)\n    \n    # Convert to circuit and simulate\n    circuit = ls_block.to_circuit()\n    "

/-- The external modules imported at module level by
`loom_getting_started.py`, in source order: lines 35-37, 72, 103-105,
147-149 (including `import numpy as np`), 196, 231, 272-273 and 374; all of
them execute before any printing. -/
def loomImportedModules : List String := [
  "loom.code_factory",
  "loom.backends.stim",
  "loom.visualizer",
  "loom.code_factory",
  "loom.eka",
  "loom.circuit",
  "loom.interpretation",
  "loom.backends.stim",
  "loom.executor",
  "numpy",
  "loom.code_factory",
  "loom.lattice_surgery",
  "loom.eka",
  "loom.block",
  "loom.decoder"]

/-- The `__main__` block of `loom_getting_started.py` (lines 462-505): its
prints, with the Example-1 call kept inside its own `try/except Exception`
block and the prints of `example_entwine_integration` inlined. -/
def loomMainStmts : List Stmt := [
  Stmt.print (rep '=' 70),
  Stmt.print ("LOOM - Quantum Error Correction Framework by Entropica Labs"),
  Stmt.print (rep '=' 70),
  Stmt.print ("\n--- Example 1: Repetition Code ---"),
  Stmt.guardedCall "example_repetition_code()",
  Stmt.print ("\n--- Example 2: Surface Code ---"),
  Stmt.print ("The rotated surface code is widely used in QEC implementations"),
  Stmt.print ("\n--- Example 3: Memory Experiment ---"),
  Stmt.print ("Memory experiments test how long we can preserve quantum information"),
  Stmt.print ("\n--- Example 4: Stim Simulation ---"),
  Stmt.print ("Stim provides fast stabilizer circuit simulation for QEC"),
  Stmt.print ("\n--- Example 5: Various QEC Codes ---"),
  Stmt.print ("Loom supports multiple QEC codes out of the box"),
  Stmt.print ("\n--- Example 6: Lattice Surgery ---"),
  Stmt.print ("Lattice surgery enables logical operations on surface codes"),
  Stmt.print ("\n--- Example 7: Custom EKA ---"),
  Stmt.print ("EKA provides fine-grained control over QEC primitives"),
  Stmt.print ("\n--- Example 8: Entwine Integration ---"),
  Stmt.print ("Entwine Integration Workflow:"),
  Stmt.print ("1. Design circuits visually at https://entwine.entropicalabs.com/"),
  Stmt.print ("2. Export as Loom Python code"),
  Stmt.print ("3. Run simulations with your choice of backend"),
  Stmt.print ("\nExample generated code:"),
  Stmt.print entwine_generated_code,
  Stmt.print ("\n--- Example 9: Decoding ---"),
  Stmt.print ("Decoders determine corrections from syndrome measurements"),
  Stmt.print ("\n--- Example 10: Threshold Analysis ---"),
  Stmt.print ("Comparing different code distances reveals QEC threshold behavior"),
  Stmt.print ("\n" ++ rep '=' 70),
  Stmt.print ("For more information:"),
  Stmt.print ("  Documentation: https://loom-api-docs.entropicalabs.com/"),
  Stmt.print ("  GitHub: https://github.com/entropicalabs/el-loom"),
  Stmt.print ("  Visual Design: https://loom-docs.entropicalabs.com/"),
  Stmt.print ("  Entwine GUI: https://entwine.entropicalabs.com/"),
  Stmt.print (rep '=' 70)
]

/-- Running `loom_getting_started.py` as a script: the ordered module-level
imports of the external `loom` submodules and `numpy`, then the `__main__`
block. -/
def loomGettingStartedScript : List Stmt :=
  loomImportedModules.map Stmt.importMod ++ loomMainStmts

/-- The external module imported at module level by
`deltakit_getting_started.py`: the twelve `from deltakit import ...`
statements (lines 37, 60, 93, 127, 173, 216, 271, 308, 353, 397, 442, 496)
all load the module `deltakit`, before any printing. -/
def deltakitImportedModules : List String := [
  "deltakit", "deltakit", "deltakit", "deltakit", "deltakit", "deltakit",
  "deltakit", "deltakit", "deltakit", "deltakit", "deltakit", "deltakit"]

/-- The `__main__` block of `deltakit_getting_started.py` (lines 583-639):
its prints, with `example_textbook_workflow` inlined — its prints plus its
two unguarded calls into the external package. -/
def deltakitMainStmts : List Stmt := [
  Stmt.print (rep '=' 70),
  Stmt.print ("DELTAKIT - Quantum Error Correction SDK by Riverlane"),
  Stmt.print (rep '=' 70),
  Stmt.print ("\n--- Example 1: Setup ---"),
  Stmt.print ("First, get your free token at https://deltakit.riverlane.com/"),
  Stmt.print ("\n--- Example 2: Repetition Code ---"),
  Stmt.print ("The simplest QEC code, great for learning the basics"),
  Stmt.print ("\n--- Example 3: Surface Code ---"),
  Stmt.print ("Industry standard for near-term quantum computers"),
  Stmt.print ("\n--- Example 4: Memory Experiment ---"),
  Stmt.print ("Test how well codes preserve quantum information"),
  Stmt.print ("\n--- Example 5: Decoder Comparison ---"),
  Stmt.print ("Deltakit provides multiple state-of-the-art decoders:"),
  Stmt.print ("  - MWPM: Minimum Weight Perfect Matching"),
  Stmt.print ("  - LCD: Local Clustering Decoder (Riverlane proprietary)"),
  Stmt.print ("  - BP-AC: Belief Propagation with Automorphism Clustering"),
  Stmt.print ("\n--- Example 6: Noise Models ---"),
  Stmt.print ("Model realistic quantum hardware noise"),
  Stmt.print ("\n--- Example 7: qLDPC Codes ---"),
  Stmt.print ("Next-generation codes with better encoding rates"),
  Stmt.print ("\n--- Example 8: Leakage Simulation ---"),
  Stmt.print ("Model and mitigate leakage to non-computational states"),
  Stmt.print ("\n--- Example 9: Stability Experiments ---"),
  Stmt.print ("Characterize error thresholds and fidelity"),
  Stmt.print ("\n--- Example 10: Transpilation ---"),
  Stmt.print ("Adapt circuits to different hardware platforms"),
  Stmt.print ("\n--- Example 11: Visualization ---"),
  Stmt.print ("Analyze and visualize QEC experiments"),
  Stmt.print ("\n--- Example 12: Deltaflow Integration ---"),
  Stmt.print ("Deploy to real quantum hardware with Riverlane\x27s Deltaflow"),
  Stmt.print ("\n--- Example 13: Learning Modules ---"),
  Stmt.print ("Deltakit Learning Modules:\n"),
  Stmt.print ("Module 1: Introduction to QEC"),
  Stmt.print ("  - Why quantum error correction is essential"),
  Stmt.print ("  - Classical error correction as intuition"),
  Stmt.print ("  - The threshold theorem"),
  Stmt.print ("\nModule 2: Repetition Codes"),
  Stmt.print ("  - Bit-flip and phase-flip codes"),
  Stmt.print ("  - Syndrome extraction circuits"),
  Stmt.print ("  - Hands-on: Build a 3-qubit repetition code"),
  Stmt.extCall "RepetitionCode(distance=3)",
  Stmt.print ("\nModule 3: Surface Codes"),
  Stmt.print ("  - Stabilizer formalism"),
  Stmt.print ("  - 2D lattice structure"),
  Stmt.print ("  - Hands-on: Implement a surface code memory"),
  Stmt.extCall "SurfaceCode(distance=3)",
  Stmt.print ("\nModule 4: Decoding"),
  Stmt.print ("  - Minimum weight perfect matching"),
  Stmt.print ("  - Belief propagation"),
  Stmt.print ("  - Hands-on: Compare decoder performance"),
  Stmt.print ("\nAccess the full interactive textbook at:"),
  Stmt.print ("https://deltakit.riverlane.com/textbook"),
  Stmt.print ("\n" ++ rep '=' 70),
  Stmt.print ("Resources:"),
  Stmt.print ("  Website: https://deltakit.riverlane.com/"),
  Stmt.print ("  Documentation: https://deltakit.riverlane.com/docs"),
  Stmt.print ("  Textbook: https://deltakit.riverlane.com/textbook"),
  Stmt.print ("  GitHub: Check Riverlane\x27s GitHub for examples"),
  Stmt.print ("  Community: Join the Deltakit community forums"),
  Stmt.print ("\nDeltakit bridges the gap from learning QEC fundamentals"),
  Stmt.print ("to deploying on real quantum hardware!"),
  Stmt.print (rep '=' 70)
]

/-- Running `deltakit_getting_started.py` as a script: the ordered
module-level imports of `deltakit`, then the `__main__` block. -/
def deltakitGettingStartedScript : List Stmt :=
  deltakitImportedModules.map Stmt.importMod ++ deltakitMainStmts

/-- C1: for the three-profile dataset restricted to Loom, Deltakit and Stim and
the category "Type", the per-profile print loop emits exactly the three lines
`"Loom            | Full-stack QEC toolkit"`,
`"Deltakit        | SDK + Learning platform"`,
`"Stim            | Stabilizer circuit simulator"`, in that order, the
framework name left-justified in a 15-character column. -/
theorem c1_by_category_three_profiles :
    profileLines "Type" frameworksLDS =
      Except.ok ["Loom            | Full-stack QEC toolkit",
                 "Deltakit        | SDK + Learning platform",
                 "Stim            | Stabilizer circuit simulator"] := by
  rfl

lemma profileLines_ok (c : String) :
    ∀ fw : List (String × Profile), (∀ nd ∈ fw, (lookupKey nd.2 c).isSome) →
    ∃ lines, profileLines c fw = Except.ok lines ∧
      lines.length = fw.length ∧
      ∀ j nd, fw.get? j = some nd →
        ∃ v, lookupKey nd.2 c = some v ∧
          lines.get? j = some (pyLJust nd.1 15 ++ " | " ++ v) := by
  intro fw
  induction fw with
  | nil =>
    intro _
    exact ⟨[], rfl, rfl, by intro j nd h; simp at h⟩
  | cons nd rest ih =>
    intro h
    obtain ⟨name, details⟩ := nd
    have hhead : (lookupKey details c).isSome := h _ (List.mem_cons_self _ _)
    obtain ⟨v, hv⟩ := Option.isSome_iff_exists.mp hhead
    obtain ⟨ls, hls, hlen, hget⟩ := ih (fun x hx => h x (List.mem_cons_of_mem _ hx))
    refine ⟨(pyLJust name 15 ++ " | " ++ v) :: ls, ?_, by simp [hlen], ?_⟩
    · simp only [profileLines, hv, hls]
    · intro j nd' hj
      match j with
      | 0 =>
        simp only [List.get?] at hj
        cases hj
        exact ⟨v, hv, rfl⟩
      | j + 1 =>
        simp only [List.get?] at hj ⊢
        exact hget j nd' hj

lemma profileLines_isOk_iff (c : String) (fw : List (String × Profile)) :
    (∃ ls, profileLines c fw = Except.ok ls) ↔
      ∀ nd ∈ fw, (lookupKey nd.2 c).isSome := by
  constructor
  · induction fw with
    | nil => intro _ nd h; simp at h
    | cons hd rest ih =>
      intro hex nd hmem
      obtain ⟨name, details⟩ := hd
      obtain ⟨ls, hls⟩ := hex
      cases hv : lookupKey details c with
      | none =>
        simp only [profileLines, hv] at hls
        exact absurd hls (by simp)
      | some v =>
        rcases List.mem_cons.mp hmem with hfirst | hrest
        · subst hfirst; simp [hv]
        · refine ih ?_ nd hrest
          simp only [profileLines, hv] at hls
          cases hrec : profileLines c rest with
          | error e => rw [hrec] at hls; exact absurd hls (by simp)
          | ok ls' => exact ⟨ls', rfl⟩
  · intro h
    obtain ⟨ls, hls, _, _⟩ := profileLines_ok c fw h
    exact ⟨ls, hls⟩

lemma profileLines_error (c : String) (fw : List (String × Profile)) :
    ∀ e, profileLines c fw = Except.error e → e = "KeyError: " ++ c := by
  induction fw with
  | nil => intro e he; simp [profileLines] at he
  | cons hd rest ih =>
    intro e he
    obtain ⟨name, details⟩ := hd
    cases hv : lookupKey details c with
    | none =>
      simp only [profileLines, hv, Except.error.injEq] at he
      exact he.symm
    | some v =>
      simp only [profileLines, hv] at he
      cases hrec : profileLines c rest with
      | error f =>
        rw [hrec] at he
        simp only [Except.error.injEq] at he
        exact he ▸ ih f hrec
      | ok ls => rw [hrec] at he; exact absurd he (by simp)

lemma renderByCategory_ok_iff (fw : List (String × Profile)) (cats : List String) :
    (∃ out, renderByCategory fw cats = Except.ok out) ↔
      ∀ c ∈ cats, ∀ nd ∈ fw, (lookupKey nd.2 c).isSome := by
  induction cats with
  | nil => simp [renderByCategory]
  | cons c cs ih =>
    constructor
    · intro ⟨out, hout⟩ c' hc'
      cases hp : profileLines c fw with
      | error e =>
        simp only [renderByCategory, hp] at hout
        exact absurd hout (by simp)
      | ok ls =>
        simp only [renderByCategory, hp] at hout
        cases hrec : renderByCategory fw cs with
        | error e => rw [hrec] at hout; exact absurd hout (by simp)
        | ok rest =>
          rcases List.mem_cons.mp hc' with hfirst | hrest
          · subst hfirst
            exact (profileLines_isOk_iff c' fw).mp ⟨ls, hp⟩
          · exact ih.mp ⟨rest, hrec⟩ c' hrest
    · intro h
      obtain ⟨ls, hls⟩ := (profileLines_isOk_iff c fw).mpr
        (h c (List.mem_cons_self _ _))
      obtain ⟨rest, hrest⟩ := ih.mpr (fun c' hc' => h c' (List.mem_cons_of_mem _ hc'))
      exact ⟨categoryBanner c ++ ls ++ rest, by simp only [renderByCategory, hls, hrest]⟩

lemma renderByCategory_error (fw : List (String × Profile)) (cats : List String) :
    ∀ e, renderByCategory fw cats = Except.error e → ∃ c ∈ cats, e = "KeyError: " ++ c := by
  induction cats with
  | nil => intro e he; simp [renderByCategory] at he
  | cons c cs ih =>
    intro e he
    cases hp : profileLines c fw with
    | error f =>
      simp only [renderByCategory, hp, Except.error.injEq] at he
      exact ⟨c, List.mem_cons_self _ _, he ▸ profileLines_error c fw f hp⟩
    | ok ls =>
      simp only [renderByCategory, hp] at he
      cases hrec : renderByCategory fw cs with
      | error f =>
        rw [hrec] at he
        simp only [Except.error.injEq] at he
        obtain ⟨c', hc', he'⟩ := ih f hrec
        exact ⟨c', List.mem_cons_of_mem _ hc', he ▸ he'⟩
      | ok rest => rw [hrec] at he; exact absurd he (by simp)

/-- C2: for every profile mapping whose profiles all store every requested
category, the category loop succeeds and, per category, emits (after the
banner) exactly one line per profile, in insertion order, each line being the
name left-justified to 15 columns, `" | "`, and that profile's stored value
verbatim. -/
theorem c2_one_line_per_profile (fw : List (String × Profile)) (cats : List String)
    (h : ∀ c ∈ cats, ∀ nd ∈ fw, (lookupKey nd.2 c).isSome) :
    (∃ out, renderByCategory fw cats = Except.ok out) ∧
    ∀ c ∈ cats, ∃ lines, profileLines c fw = Except.ok lines ∧
      lines.length = fw.length ∧
      ∀ j nd, fw.get? j = some nd →
        ∃ v, lookupKey nd.2 c = some v ∧
          lines.get? j = some (pyLJust nd.1 15 ++ " | " ++ v) := by
  refine ⟨(renderByCategory_ok_iff fw cats).mpr h, ?_⟩
  intro c hc
  exact profileLines_ok c fw (h c hc)

/-- C2 witness: the literal `frameworks` dataset together with the fixed
category list satisfies the hypothesis, so the conclusion holds there. -/
theorem c2_witness :
    (∃ out, renderByCategory frameworks categoriesList = Except.ok out) ∧
    ∀ c ∈ categoriesList, ∃ lines, profileLines c frameworks = Except.ok lines ∧
      lines.length = frameworks.length ∧
      ∀ j nd, frameworks.get? j = some nd →
        ∃ v, lookupKey nd.2 c = some v ∧
          lines.get? j = some (pyLJust nd.1 15 ++ " | " ++ v) :=
  c2_one_line_per_profile frameworks categoriesList (by decide)

/-- C5: the category loop succeeds exactly when every requested category is a
key of every profile, and any failure is a lookup error (`KeyError`) for one
of the requested categories — never a silently substituted default. -/
theorem c5_missing_category_fails (fw : List (String × Profile)) (cats : List String) :
    ((∃ out, renderByCategory fw cats = Except.ok out) ↔
      ∀ c ∈ cats, ∀ nd ∈ fw, (lookupKey nd.2 c).isSome) ∧
    ∀ e, renderByCategory fw cats = Except.error e → ∃ c ∈ cats, e = "KeyError: " ++ c :=
  ⟨renderByCategory_ok_iff fw cats, renderByCategory_error fw cats⟩

/-- C5 witness: a profile lacking the requested category "Type" makes the
renderer return a `KeyError`, and the error names a requested category. -/
theorem c5_witness :
    renderByCategory [("Loom", [("Developer", "Entropica Labs (Singapore)")])] ["Type"]
        = Except.error "KeyError: Type" ∧
    ∃ c ∈ ["Type"], ("KeyError: Type" : String) = "KeyError: " ++ c :=
  ⟨by rfl,
   (c5_missing_category_fails [("Loom", [("Developer", "Entropica Labs (Singapore)")])]
     ["Type"]).2 "KeyError: Type" (by rfl)⟩

lemma renderByCategory_empty_profiles (cats : List String) :
    renderByCategory [] cats = Except.ok (cats.flatMap categoryBanner) := by
  induction cats with
  | nil => rfl
  | cons c cs ih => simp [renderByCategory, profileLines, ih]

lemma renderTable_eq_print_comparison_table :
    renderTable profilesLoomDeltakit comparisonFeature = print_comparison_table := by
  rfl

/-- C10: the three parallel lists of the `comparison` dictionary each have
exactly 14 elements, so every index enumerated from the "Feature" list is in
bounds for the Loom and Deltakit columns (the `Option`-returning reads are
never `none`), and the table renderer produces a result. -/
theorem c10_parallel_lists_in_bounds :
    comparisonFeature.length = 14 ∧ comparisonLoom.length = 14 ∧
    comparisonDeltakit.length = 14 ∧
    ((List.range comparisonFeature.length).all fun i =>
      (comparisonLoom.get? i).isSome && (comparisonDeltakit.get? i).isSome) = true ∧
    print_comparison_table.isSome = true := by
  refine ⟨rfl, rfl, rfl, by decide, by rfl⟩

lemma rep_length (c : Char) (n : Nat) : (rep c n).length = n := by
  simp [rep, String.length]

lemma pyLJust_length (s : String) (w : Nat) :
    (pyLJust s w).length = max s.length w := by
  simp only [pyLJust, String.length_append, rep_length]
  omega

/-- C7: the table's column width is the fixed constant 40 (30 for the feature
column); a padded cell has length `max len 40`, so values of length ≥ 40 pass
through unchanged (never wrapped or truncated) and shorter values are padded
to exactly 40; each cell value appears verbatim as a substring of its data
line. -/
theorem c7_fixed_width_no_truncation (f lv dv : String) :
    (pyLJust lv 40).length = max lv.length 40 ∧
    (pyLJust dv 40).length = max dv.length 40 ∧
    (∃ pre post, tableDataLine f lv dv = pre ++ lv ++ post) ∧
    (∃ pre post, tableDataLine f lv dv = pre ++ dv ++ post) ∧
    (40 ≤ lv.length → pyLJust lv 40 = lv) := by
  refine ⟨pyLJust_length lv 40, pyLJust_length dv 40, ?_, ?_, ?_⟩
  · exact ⟨pyLJust f 30 ++ " | ",
      rep ' ' (40 - lv.length) ++ (" | " ++ pyLJust dv 40),
      by simp [tableDataLine, pyLJust, String.append_assoc]⟩
  · exact ⟨pyLJust f 30 ++ " | " ++ pyLJust lv 40 ++ " | ",
      rep ' ' (40 - dv.length),
      by simp [tableDataLine, pyLJust, String.append_assoc]⟩
  · intro h
    have hz : 40 - lv.length = 0 := Nat.sub_eq_zero_of_le h
    simp [pyLJust, hz, rep]

/-- C7 witness: the literal Deltakit cell "Learning QEC, production
deployment, hardware" is 45 > 40 characters long and appears unpadded and
verbatim in its data line. -/
theorem c7_witness :
    pyLJust "Learning QEC, production deployment, hardware" 40
        = "Learning QEC, production deployment, hardware" ∧
    (∃ pre post,
      tableDataLine "Best For" "Learning QEC, production deployment, hardware"
          "Research, prototyping, education, visual design" =
        pre ++ "Learning QEC, production deployment, hardware" ++ post) :=
  ⟨(c7_fixed_width_no_truncation "Best For"
      "Learning QEC, production deployment, hardware"
      "Research, prototyping, education, visual design").2.2.2.2 (by decide),
   (c7_fixed_width_no_truncation "Best For"
      "Learning QEC, production deployment, hardware"
      "Research, prototyping, education, visual design").2.2.1⟩

lemma columnVals_ok (i : Nat) :
    ∀ profiles : List (String × List String),
    (∀ p ∈ profiles, (p.2.get? i).isSome) →
    ∃ vals, columnVals i profiles = some vals ∧ vals.length = profiles.length ∧
      ∀ m p, profiles.get? m = some p → vals.get? m = p.2.get? i := by
  intro profiles
  induction profiles with
  | nil =>
    intro _
    exact ⟨[], rfl, rfl, by intro m p h; simp at h⟩
  | cons q ps ih =>
    intro h
    obtain ⟨v, hv⟩ := Option.isSome_iff_exists.mp (h q (List.mem_cons_self _ _))
    obtain ⟨vs, hvs, hlen, hget⟩ := ih (fun p hp => h p (List.mem_cons_of_mem _ hp))
    refine ⟨v :: vs, ?_, by simp [hlen], ?_⟩
    · simp only [columnVals, hv, hvs]
    · intro m p hm
      match m with
      | 0 =>
        simp only [List.get?] at hm ⊢
        cases hm
        exact hv.symm
      | m + 1 =>
        simp only [List.get?] at hm ⊢
        exact hget m p hm

lemma renderTableRows_ok (profiles : List (String × List String)) :
    ∀ (fs : List String) (k : Nat),
    (∀ p ∈ profiles, ∀ i, k ≤ i → i < k + fs.length → (p.2.get? i).isSome) →
    ∃ rows, renderTableRows profiles k fs = some rows ∧ rows.length = fs.length ∧
      ∀ j f, fs.get? j = some f →
        ∃ vals, columnVals (k + j) profiles = some vals ∧
          vals.length = profiles.length ∧
          (∀ m p, profiles.get? m = some p → vals.get? m = p.2.get? (k + j)) ∧
          rows.get? j = some (rowOfVals f vals) := by
  intro fs
  induction fs with
  | nil =>
    intro k _
    exact ⟨[], rfl, rfl, by intro j f h; simp at h⟩
  | cons f fs' ih =>
    intro k h
    have hhead : ∀ p ∈ profiles, (p.2.get? k).isSome := by
      intro p hp
      exact h p hp k (Nat.le_refl k) (by simp)
    obtain ⟨vals, hvals, hvlen, hvget⟩ := columnVals_ok k profiles hhead
    obtain ⟨rest, hrest, hrlen, hrget⟩ := ih (k + 1) (by
      intro p hp i h1 h2
      exact h p hp i (Nat.le_of_succ_le h1) (by simp at h2 ⊢; omega))
    refine ⟨rowOfVals f vals :: rest, ?_, by simp [hrlen], ?_⟩
    · simp only [renderTableRows, hvals, hrest]
    · intro j g hj
      match j with
      | 0 =>
        simp only [List.get?] at hj ⊢
        cases hj
        exact ⟨vals, by simpa using hvals, hvlen, by simpa using hvget, rfl⟩
      | j + 1 =>
        simp only [List.get?] at hj ⊢
        obtain ⟨vals', h1, h2, h3, h4⟩ := hrget j g hj
        have harith : k + 1 + j = k + (j + 1) := by omega
        rw [harith] at h1 h3
        exact ⟨vals', h1, h2, h3, h4⟩

/-- C4 counterexample: on the code's own literal data the table renderer
emits 14 data lines (one per feature) while there are 2 profiles, so "exactly
`len(profiles)` data lines" is false. -/
theorem c4_counterexample :
    (renderTableRows profilesLoomDeltakit 0 comparisonFeature).map List.length = some 14 ∧
    profilesLoomDeltakit.length = 2 ∧ (14 : Nat) ≠ 2 := by
  refine ⟨by rfl, by rfl, by decide⟩

/-- C4 amended: for every profile-column sequence and feature sequence such
that every profile has at least one value per feature, the table renderer
emits exactly one header line (plus banners/separator) and exactly
`len(features)` data lines — one per feature, the profiles appearing as
columns — and data line `j` consists of feature `j` followed by each
profile's value at index `j`, in the specified profile order. -/
theorem c4_amended (profiles : List (String × List String)) (features : List String)
    (h : ∀ p ∈ profiles, features.length ≤ p.2.length) :
    ∃ rows, renderTableRows profiles 0 features = some rows ∧
      renderTable profiles features =
        some (tableHeader profiles ++ rows ++ ["\n" ++ rep '=' 80 ++ "\n"]) ∧
      rows.length = features.length ∧
      ∀ j f, features.get? j = some f →
        ∃ vals, columnVals j profiles = some vals ∧
          vals.length = profiles.length ∧
          (∀ m p, profiles.get? m = some p → vals.get? m = p.2.get? j) ∧
          rows.get? j = some (pyLJust f 30 ++
            String.join (vals.map (fun v => " | " ++ pyLJust v 40))) := by
  have hb : ∀ p ∈ profiles, ∀ i, 0 ≤ i → i < 0 + features.length → (p.2.get? i).isSome := by
    intro p hp i _ hi
    have hple := h p hp
    rw [List.get?_eq_get (by omega)]
    exact Option.isSome_some
  obtain ⟨rows, hrows, hlen, hget⟩ := renderTableRows_ok profiles features 0 hb
  refine ⟨rows, hrows, ?_, hlen, ?_⟩
  · simp only [renderTable, hrows]
  · intro j f hj
    obtain ⟨vals, h1, h2, h3, h4⟩ := hget j f hj
    rw [Nat.zero_add] at h1 h3
    exact ⟨vals, h1, h2, h3, h4⟩

/-- C4 witness: the amended statement at the code's literal data. -/
theorem c4_witness :
    ∃ rows, renderTableRows profilesLoomDeltakit 0 comparisonFeature = some rows ∧
      renderTable profilesLoomDeltakit comparisonFeature =
        some (tableHeader profilesLoomDeltakit ++ rows ++ ["\n" ++ rep '=' 80 ++ "\n"]) ∧
      rows.length = comparisonFeature.length ∧
      ∀ j f, comparisonFeature.get? j = some f →
        ∃ vals, columnVals j profilesLoomDeltakit = some vals ∧
          vals.length = profilesLoomDeltakit.length ∧
          (∀ m p, profilesLoomDeltakit.get? m = some p → vals.get? m = p.2.get? j) ∧
          rows.get? j = some (pyLJust f 30 ++
            String.join (vals.map (fun v => " | " ++ pyLJust v 40))) :=
  c4_amended profilesLoomDeltakit comparisonFeature (by decide)

/-- C8 counterexample: with an empty profile-column sequence the table loop
still runs once per feature, so on the code's 14 features it emits 14 data
rows, not zero. -/
theorem c8_counterexample :
    (renderTableRows ([] : List (String × List String)) 0 comparisonFeature).map
        List.length = some 14 ∧
    (14 : Nat) ≠ 0 := by
  refine ⟨by rfl, by decide⟩

/-- C8 amended: the by-category renderer on an empty profile mapping prints
only the banner lines (zero profile lines) and succeeds, for every category
list; the table renderer's data rows are per-feature, so it prints only its
header/banner lines and zero data rows exactly when the feature list is
empty (succeeding for every profile sequence), while an empty profile
sequence with the code's 14 features still yields one feature-only row per
feature. -/
theorem c8_empty_inputs (cats : List String) (profiles : List (String × List String)) :
    renderByCategory [] cats = Except.ok (cats.flatMap categoryBanner) ∧
    renderTable profiles [] =
      some (tableHeader profiles ++ ["\n" ++ rep '=' 80 ++ "\n"]) ∧
    (renderTableRows ([] : List (String × List String)) 0 comparisonFeature).map
        List.length = some comparisonFeature.length := by
  refine ⟨renderByCategory_empty_profiles cats, ?_, by rfl⟩
  simp [renderTable, renderTableRows]

lemma runPrints_eq_append : ∀ (L c : List String), runPrints c L = c ++ L := by
  intro L
  induction L with
  | nil => intro c; simp [runPrints]
  | cons s rest ih =>
    intro c
    simp only [runPrints]
    rw [ih (c ++ [s])]
    simp

/-- C6: each render operation is deterministic and idempotent with respect to
its input: invoked twice from any console state it appends the identical line
list both times — there is no hidden mutable state and the output depends
only on the literal dataset. -/
theorem c6_renderers_deterministic (c : List String) :
    print_comprehensive_comparison_run (print_comprehensive_comparison_run c) =
      c ++ print_comprehensive_comparison_run [] ++
        print_comprehensive_comparison_run [] ∧
    print_comparison_table_run (print_comparison_table_run c) =
      c ++ print_comparison_table_run [] ++ print_comparison_table_run [] ∧
    print_detailed_comparison_run (print_detailed_comparison_run c) =
      c ++ print_detailed_comparison_run [] ++ print_detailed_comparison_run [] := by
  refine ⟨?_, ?_, ?_⟩ <;>
    simp [print_comprehensive_comparison_run, print_comparison_table_run,
      print_detailed_comparison_run, runPrints_eq_append, List.append_assoc]

lemma execStmts_all_prints (avail callOk : String → Bool) :
    ∀ stmts : List Stmt, (∀ s ∈ stmts, isPrintStmt s = true) →
    ∀ out, execStmts avail callOk stmts out = (out ++ printsOf stmts, none) := by
  intro stmts
  induction stmts with
  | nil => intro _ out; simp [execStmts, printsOf]
  | cons s rest ih =>
    intro h out
    match s with
    | Stmt.print str =>
      simp only [execStmts, printsOf]
      rw [ih (fun x hx => h x (List.mem_cons_of_mem _ hx)) (out ++ [str])]
      simp
    | Stmt.importMod m => exact absurd (h _ (List.mem_cons_self _ _)) (by simp [isPrintStmt])
    | Stmt.extCall d => exact absurd (h _ (List.mem_cons_self _ _)) (by simp [isPrintStmt])
    | Stmt.guardedCall d => exact absurd (h _ (List.mem_cons_self _ _)) (by simp [isPrintStmt])

/-- C9: the try bodies of `loom_example` and `deltakit_example` consist only
of print calls on literal strings, which cannot raise `ImportError`, so the
`except ImportError` handler is unreachable: for every environment the
functions append exactly their banner, body and closing lines, and neither
"[Note: Loom not installed...]" nor "[Note: Deltakit not installed...]"
occurs in those lines. -/
theorem c9_handler_unreachable (avail callOk : String → Bool) (c : List String) :
    (∀ s ∈ loomExampleBody, isPrintStmt s = true) ∧
    (∀ s ∈ deltakitExampleBody, isPrintStmt s = true) ∧
    loom_example avail callOk c = (c ++ loomExampleLines, none) ∧
    deltakit_example avail callOk c = (c ++ deltakitExampleLines, none) ∧
    "\n[Note: Loom not installed. Install with: pip install loom]" ∉
      loomExampleLines ∧
    "\n[Note: Deltakit not installed. Install with: pip install deltakit]" ∉
      deltakitExampleLines := by
  have hl : ∀ s ∈ loomExampleBody, isPrintStmt s = true := by decide
  have hd : ∀ s ∈ deltakitExampleBody, isPrintStmt s = true := by decide
  refine ⟨hl, hd, ?_, ?_, by decide, by decide⟩
  · simp only [loom_example, tryExceptImportError,
      execStmts_all_prints avail callOk loomExampleBody hl, loomExampleLines]
    simp [List.append_assoc]
  · simp only [deltakit_example, tryExceptImportError,
      execStmts_all_prints avail callOk deltakitExampleBody hd, deltakitExampleLines]
    simp [List.append_assoc]

lemma isPrint_map_print (L : List String) :
    ∀ s ∈ L.map Stmt.print, isPrintStmt s = true := by
  intro s hs
  obtain ⟨x, _, rfl⟩ := List.mem_map.mp hs
  rfl

lemma printsOf_map_print (L : List String) : printsOf (L.map Stmt.print) = L := by
  induction L with
  | nil => rfl
  | cons s rest ih => simp [printsOf, ih]

/-- C3 counterexample: in the explicit environment where no external package
is importable (the repository itself ships neither `loom`, `deltakit` nor
`numpy`), the two getting-started scripts raise `ModuleNotFoundError` at
their first module-level import — before printing anything — and do not exit
with status 0, refuting "exits with status 0 unconditionally; no error path
is reachable". -/
theorem c3_counterexample :
    runScript (fun _ => false) (fun _ => true) loomGettingStartedScript =
      ([], some (PyExc.importError "No module named loom.code_factory")) ∧
    runScript (fun _ => false) (fun _ => true) deltakitGettingStartedScript =
      ([], some (PyExc.importError "No module named deltakit")) ∧
    exitOk (runScript (fun _ => false) (fun _ => true) loomGettingStartedScript)
      = false ∧
    exitOk (runScript (fun _ => false) (fun _ => true) deltakitGettingStartedScript)
      = false := by
  refine ⟨by rfl, by rfl, by rfl, by rfl⟩

lemma execStmts_import_block (avail callOk : String → Bool) :
    ∀ (mods : List String) (rest : List Stmt) (out : List String),
    (∃ m ∈ mods, avail m = false) →
    ∃ m ∈ mods, avail m = false ∧
      execStmts avail callOk (mods.map Stmt.importMod ++ rest) out =
        (out, some (PyExc.importError ("No module named " ++ m))) := by
  intro mods
  induction mods with
  | nil => intro rest out h; simp at h
  | cons m ms ih =>
    intro rest out h
    cases hm : avail m with
    | false =>
      refine ⟨m, List.mem_cons_self _ _, hm, ?_⟩
      simp [execStmts, hm]
    | true =>
      obtain ⟨m', hm', hfalse⟩ := h
      rcases List.mem_cons.mp hm' with heq | hms
      · subst heq; rw [hm] at hfalse; exact absurd hfalse (by simp)
      · obtain ⟨m'', h1, h2, h3⟩ := ih rest out ⟨m', hms, hfalse⟩
        refine ⟨m'', List.mem_cons_of_mem _ h1, h2, ?_⟩
        simp only [List.map_cons, List.cons_append, execStmts, hm, if_true]
        exact h3

/-- C3 amended: the two comparison scripts print their full report and exit
with status 0 in every environment (they have no module-level imports and no
reachable error path); the two getting-started scripts run their unguarded
module-level imports of external packages before any printing, so in every
environment where any of their imported modules (any `loom` submodule,
`numpy`, or `deltakit`) is unavailable, the script stops at an `ImportError`
naming a missing module, having printed nothing, and does not exit with
status 0 — hence they exit 0 only when every imported module is available. -/
theorem c3_scripts_exit_status (avail callOk : String → Bool) :
    runScript avail callOk qecComparisonScript = (mainLines, none) ∧
    runScript avail callOk expandedComparisonScript =
      (print_comprehensive_comparison_lines, none) ∧
    exitOk (runScript avail callOk qecComparisonScript) = true ∧
    exitOk (runScript avail callOk expandedComparisonScript) = true ∧
    ((∃ m ∈ loomImportedModules, avail m = false) →
      ∃ m ∈ loomImportedModules, avail m = false ∧
        runScript avail callOk loomGettingStartedScript =
          ([], some (PyExc.importError ("No module named " ++ m))) ∧
        exitOk (runScript avail callOk loomGettingStartedScript) = false) ∧
    ((∃ m ∈ deltakitImportedModules, avail m = false) →
      ∃ m ∈ deltakitImportedModules, avail m = false ∧
        runScript avail callOk deltakitGettingStartedScript =
          ([], some (PyExc.importError ("No module named " ++ m))) ∧
        exitOk (runScript avail callOk deltakitGettingStartedScript) = false) := by
  have h1 : runScript avail callOk qecComparisonScript = (mainLines, none) := by
    show execStmts avail callOk (mainLines.map Stmt.print) [] = (mainLines, none)
    rw [execStmts_all_prints avail callOk _ (isPrint_map_print mainLines)]
    simp [printsOf_map_print]
  have h2 : runScript avail callOk expandedComparisonScript =
      (print_comprehensive_comparison_lines, none) := by
    show execStmts avail callOk
      (print_comprehensive_comparison_lines.map Stmt.print) [] =
      (print_comprehensive_comparison_lines, none)
    rw [execStmts_all_prints avail callOk _
      (isPrint_map_print print_comprehensive_comparison_lines)]
    simp [printsOf_map_print]
  refine ⟨h1, h2, by simp [exitOk, h1], by simp [exitOk, h2], ?_, ?_⟩
  · intro h
    obtain ⟨m, hmem, hfalse, heq⟩ :=
      execStmts_import_block avail callOk loomImportedModules loomMainStmts [] h
    have hrun : runScript avail callOk loomGettingStartedScript =
        ([], some (PyExc.importError ("No module named " ++ m))) := heq
    exact ⟨m, hmem, hfalse, hrun, by simp [exitOk, hrun]⟩
  · intro h
    obtain ⟨m, hmem, hfalse, heq⟩ :=
      execStmts_import_block avail callOk deltakitImportedModules
        deltakitMainStmts [] h
    have hrun : runScript avail callOk deltakitGettingStartedScript =
        ([], some (PyExc.importError ("No module named " ++ m))) := heq
    exact ⟨m, hmem, hfalse, hrun, by simp [exitOk, hrun]⟩

/-- C3 witness: the amended statement instantiated at the concrete empty
environment, with both hypotheses discharged. -/
theorem c3_witness :
    exitOk (runScript (fun _ => false) (fun _ => true) qecComparisonScript)
      = true ∧
    exitOk (runScript (fun _ => false) (fun _ => true) expandedComparisonScript)
      = true ∧
    (∃ m ∈ loomImportedModules, (fun _ => false : String → Bool) m = false ∧
      runScript (fun _ => false) (fun _ => true) loomGettingStartedScript =
        ([], some (PyExc.importError ("No module named " ++ m))) ∧
      exitOk (runScript (fun _ => false) (fun _ => true)
        loomGettingStartedScript) = false) ∧
    (∃ m ∈ deltakitImportedModules, (fun _ => false : String → Bool) m = false ∧
      runScript (fun _ => false) (fun _ => true) deltakitGettingStartedScript =
        ([], some (PyExc.importError ("No module named " ++ m))) ∧
      exitOk (runScript (fun _ => false) (fun _ => true)
        deltakitGettingStartedScript) = false) :=
  have t := c3_scripts_exit_status (fun _ => false) (fun _ => true)
  ⟨t.2.2.1, t.2.2.2.1,
   t.2.2.2.2.1 ⟨"loom.code_factory", by decide, rfl⟩,
   t.2.2.2.2.2 ⟨"deltakit", by decide, rfl⟩⟩

/-- C9 witness: the statement instantiated at a concrete environment and an
empty console. -/
theorem c9_witness :
    loom_example (fun _ => false) (fun _ => true) [] = (loomExampleLines, none) ∧
    deltakit_example (fun _ => false) (fun _ => true) [] =
      (deltakitExampleLines, none) ∧
    "\n[Note: Loom not installed. Install with: pip install loom]" ∉
      loomExampleLines ∧
    "\n[Note: Deltakit not installed. Install with: pip install deltakit]" ∉
      deltakitExampleLines :=
  have t := c9_handler_unreachable (fun _ => false) (fun _ => true) []
  ⟨by simpa using t.2.2.1, by simpa using t.2.2.2.1, t.2.2.2.2.1, t.2.2.2.2.2⟩
